import Mathlib

/-!
Verification of `src/scripts/main.js` (GSAP animation bootstrap for the
Chaya Adamson site).  The file shallowly embeds the script's observable
behaviour: the bounded GSAP polling loop with its try/catch plugin
registration, the `AnimationController` singleton's `init`/`cleanup`
lifecycle, the header scroll-class toggle, the per-card hover tween
tracking, the ScrollTrigger-absent fallback branches, and the debounced
resize handler.  Machine-irrelevant visual parameters (durations,
easings) are kept only where a claim mentions them.
-/

namespace Main

/-! ## Loader (`waitForGSAP`, `initCSS3Fallbacks`)

The success branch of `checkGSAP` runs
`try { registerPlugin(ScrollTrigger); if (ScrollToPlugin) registerPlugin(ScrollToPlugin); callback() } catch { warn; callback() }`.
We model JS exception flow with `Except`, where the error value carries
the state at the throw point (side effects before a throw are kept). -/

/-- Observable state of the success branch: how many plugin registrations
succeeded and how many times the callback was invoked. -/
structure SuccState where
  regCalls : Nat
  cbCalls : Nat
deriving DecidableEq, Repr

/-- `window.gsap.registerPlugin(...)`: either throws (no registration
recorded) or records one successful registration. -/
def registerPlugin (throws : Bool) (s : SuccState) : Except SuccState SuccState :=
  if throws then .error s else .ok { s with regCalls := s.regCalls + 1 }

/-- `callback()`: the invocation always happens (count incremented); the
callback may itself throw, in which case the exception propagates with
the incremented count. `cbThrows n` says whether the callback throws on
its `n`-th (0-based) invocation. -/
def invokeCallback (cbThrows : Nat → Bool) (s : SuccState) : Except SuccState SuccState :=
  let s' : SuccState := { s with cbCalls := s.cbCalls + 1 }
  if cbThrows s.cbCalls then .error s' else .ok s'

/-- The `try` block of `checkGSAP`'s success branch: register
ScrollTrigger, optionally register ScrollToPlugin, then invoke the
callback. -/
def checkGSAPTry (regThrows scrollToPresent : Bool) (cbThrows : Nat → Bool)
    (s : SuccState) : Except SuccState SuccState := do
  let s ← registerPlugin regThrows s
  let s ← if scrollToPresent then registerPlugin regThrows s else pure s
  invokeCallback cbThrows s

/-- The whole success branch: the `try` block, and on any throw the
`catch` handler logs a warning and invokes the callback (an exception
thrown by this second invocation escapes uncaught). -/
def checkGSAPSuccess (regThrows scrollToPresent : Bool) (cbThrows : Nat → Bool)
    (s : SuccState) : Except SuccState SuccState :=
  match checkGSAPTry regThrows scrollToPresent cbThrows s with
  | .ok s' => .ok s'
  | .error s' => invokeCallback cbThrows s'

/-- Callback-invocation count of an `Except`-valued outcome (the count is
observable whether or not an exception escaped). -/
def succCbCalls : Except SuccState SuccState → Nat
  | .ok s => s.cbCalls
  | .error s => s.cbCalls

/-- State threaded through the polling loop of `waitForGSAP`. -/
structure LoaderState where
  succ : SuccState
  fallbackStyles : Nat
  attempts : Nat
deriving DecidableEq, Repr

/-- `initCSS3Fallbacks`: creates one `<style>` element and appends it to
`document.head`. -/
def initCSS3Fallbacks (s : LoaderState) : LoaderState :=
  { s with fallbackStyles := s.fallbackStyles + 1 }

/-- `maxAttempts` in `waitForGSAP`. -/
def maxAttempts : Nat := 50

/-- `checkGSAP`: increment `attempts`; if `window.gsap && window.ScrollTrigger`
is present at this attempt run the success branch, else retry via
`setTimeout(checkGSAP, 100)` while `attempts < maxAttempts`, else inject
the CSS fallback.  `avail n` models availability of the engine when the
`n`-th attempt checks.  Each call increments `attempts`, so fuel
`maxAttempts` suffices from a fresh state. -/
def checkGSAP (avail : Nat → Bool) (regThrows scrollToPresent : Bool)
    (cbThrows : Nat → Bool) : Nat → LoaderState → LoaderState
  | 0, s => s
  | fuel + 1, s =>
    let s := { s with attempts := s.attempts + 1 }
    if avail s.attempts then
      match checkGSAPSuccess regThrows scrollToPresent cbThrows s.succ with
      | .ok s' => { s with succ := s' }
      | .error s' => { s with succ := s' }
    else if s.attempts < maxAttempts then
      checkGSAP avail regThrows scrollToPresent cbThrows fuel s
    else
      initCSS3Fallbacks s

/-- `waitForGSAP callback`: zero attempts so far, no fallback style, no
callback invocation, then `checkGSAP()`. -/
def waitForGSAP (avail : Nat → Bool) (regThrows scrollToPresent : Bool)
    (cbThrows : Nat → Bool) : LoaderState :=
  checkGSAP avail regThrows scrollToPresent cbThrows maxAttempts
    { succ := { regCalls := 0, cbCalls := 0 }, fallbackStyles := 0, attempts := 0 }

/-! ## AnimationController: `init` (lines 70–98)

`init` bails out when `isInitialized`, stores `window.gsap` /
`window.ScrollTrigger` on the controller, configures GSAP, configures
ScrollTrigger when present, then branches on the reduced-motion media
query: abbreviated batch vs. full choreography.  We record the sequence
of configuration and setup calls it makes. -/

/-- Environment read by `init`: presence of the ScrollTrigger global and
the reduced-motion media query result. -/
structure Env where
  scrollTriggerPresent : Bool
  reducedMotion : Bool
deriving DecidableEq, Repr

/-- Controller fields touched by `init`. -/
structure CtrlState where
  gsapSet : Bool
  scrollTrigger : Bool
  isInitialized : Bool
deriving DecidableEq, Repr

/-- The calls `init` can make, in source order. -/
inductive CtrlCall
  | gsapConfig
  | scrollTriggerConfig
  | initSimpleAnimations
  | setInitialStates
  | animateHero
  | animateSections
  | animateCards
  | animateButtons
  | animateFloatingElements
  | initHeaderScrollEffect
  | animatePhilosophySection
deriving DecidableEq, Repr

/-- The body of `initFullAnimations` (lines 118–130): the full
choreography, in source order. -/
def initFullAnimations : List CtrlCall :=
  [.setInitialStates, .animateHero, .animateSections, .animateCards,
   .animateButtons, .animateFloatingElements, .initHeaderScrollEffect,
   .animatePhilosophySection]

/-- `AnimationController.init`: returns the updated controller state and
the list of calls performed, in order. -/
def init (env : Env) (s : CtrlState) : CtrlState × List CtrlCall :=
  if s.isInitialized then (s, [])
  else
    let calls := [CtrlCall.gsapConfig]
      ++ (if env.scrollTriggerPresent then [CtrlCall.scrollTriggerConfig] else [])
      ++ (if env.reducedMotion then [CtrlCall.initSimpleAnimations]
          else initFullAnimations)
    ({ gsapSet := true, scrollTrigger := env.scrollTriggerPresent,
       isInitialized := true }, calls)

/-! ## Header scroll effect (`initHeaderScrollEffect`, lines 427–450)

The handler closes over `isScrolled`; it mutates `header.classList` only
when `scrollTop > 50` disagrees with the remembered flag. -/

/-- Closure variable `isScrolled`, the header's class list membership of
`"scrolled"`, and a count of `classList` mutations performed. -/
structure HeaderState where
  isScrolled : Bool
  classScrolled : Bool
  mutations : Nat
deriving DecidableEq, Repr

/-- `handleScroll` at scroll offset `scrollTop`. -/
def handleScroll (scrollTop : Nat) (s : HeaderState) : HeaderState :=
  let shouldBeScrolled := decide (scrollTop > 50)
  if shouldBeScrolled ≠ s.isScrolled then
    { isScrolled := shouldBeScrolled, classScrolled := shouldBeScrolled,
      mutations := s.mutations + 1 }
  else s

/-- `initHeaderScrollEffect` with the header initially lacking the class:
`isScrolled = false`, then one initial `handleScroll()` at the current
offset `t0`. -/
def headerInit (t0 : Nat) : HeaderState :=
  handleScroll t0 { isScrolled := false, classScrolled := false, mutations := 0 }

/-- A sequence of scroll events delivered to the bound listener. -/
def runScroll (s : HeaderState) (offsets : List Nat) : HeaderState :=
  offsets.foldl (fun s t => handleScroll t s) s

/-! ## Card hover bindings (`animateCards`, lines 312–348)

Each card's listeners close over `hoverTween`; both handlers kill the
stored tween (if any) before creating a new one.  We track tween
identities and which of them are still alive (not killed). -/

/-- The two pointer events bound per card. -/
inductive HoverEvent
  | mouseenter
  | mouseleave
deriving DecidableEq, Repr

/-- Per-card state: the closure variable `hoverTween` (identity of the
last tween created, if any), the set of hover tweens on this card not
yet killed, and a fresh-identity counter. -/
structure CardState where
  hoverTween : Option Nat
  alive : List Nat
  nextId : Nat
deriving DecidableEq, Repr

/-- A pointer event on the card: kill the stored tween if present, then
create a fresh tween (enter: scale 1.02 / y −3; leave: scale 1 / y 0 —
the tracked identity behaviour is identical) and store it. -/
def cardHoverStep (s : CardState) (e : HoverEvent) : CardState :=
  let alive := match s.hoverTween with
    | some id => s.alive.erase id
    | none => s.alive
  match e with
  | .mouseenter =>
    { hoverTween := some s.nextId, alive := alive ++ [s.nextId], nextId := s.nextId + 1 }
  | .mouseleave =>
    { hoverTween := some s.nextId, alive := alive ++ [s.nextId], nextId := s.nextId + 1 }

/-- Freshly bound card: no tween yet. -/
def cardInit : CardState := { hoverTween := none, alive := [], nextId := 0 }

/-- Deliver an interleaving of mouseenter/mouseleave events. -/
def runHover (evs : List HoverEvent) : CardState :=
  evs.foldl cardHoverStep cardInit

/-! ## `cleanup` (lines 554–567)

`cleanup` kills every tween stored in `cardHoverTweens`, clears the map,
then (when the references are set) `ScrollTrigger.killAll()` and
`gsap.killTweensOf("*")`. -/

/-- Animation-engine state visible to `cleanup`: the
`cardHoverTweens` map (card id ↦ stored tween id), the set of tweens
still active, the set of live scroll triggers, and whether the
controller holds `gsap` / `ScrollTrigger` references. -/
structure TweenState where
  cardHoverTweens : List (Nat × Nat)
  aliveTweens : List Nat
  scrollTriggers : List Nat
  gsapPresent : Bool
  scrollTriggerPresent : Bool
deriving DecidableEq, Repr

/-- `AnimationController.cleanup`. -/
def cleanup (s : TweenState) : TweenState :=
  let alive := s.cardHoverTweens.foldl (fun a p => a.erase p.2) s.aliveTweens
  let s := { s with aliveTweens := alive, cardHoverTweens := [] }
  let s := if s.scrollTriggerPresent then { s with scrollTriggers := [] } else s
  if s.gsapPresent then { s with aliveTweens := [] } else s

/-! ## ScrollTrigger-absent fallbacks (lines 209–220, 285–294, 475–495)

`animateSections`, `animateCards` and `animatePhilosophySection` each
branch on `this.ScrollTrigger`: with it, they create viewport-triggered
batches/triggers; without it, they run an immediate `gsap.to` with a
fixed delay.  Delays are recorded in milliseconds. -/

/-- Animation-setup actions these functions can take. -/
inductive AnimEvent
  | immediateTween (target : String) (delayMs : Nat)
  | batchTrigger (target : String)
  | createTrigger (target : String)
  | setState (target : String)
deriving DecidableEq, Repr

/-- Whether an action registers a viewport-triggered (scroll) trigger. -/
def AnimEvent.isScrollTriggered : AnimEvent → Bool
  | .batchTrigger _ => true
  | .createTrigger _ => true
  | _ => false

/-- `animateSections` (lines 209–283): without ScrollTrigger, one
immediate tween on titles and text with delay 1s; with it, three
batches plus a mission trigger when `.mission-content` exists. -/
def animateSections (st : Bool) (missionPresent : Bool) : List AnimEvent :=
  if !st then
    [.immediateTween ".section-title, .text-large" 1000]
  else
    [.batchTrigger ".section-title", .batchTrigger ".text-large",
     .batchTrigger ".section-divider"]
      ++ (if missionPresent then [.createTrigger ".mission-content"] else [])

/-- The reveal part of `animateCards` (lines 285–309): without
ScrollTrigger, one immediate tween on cards with delay 1.5s; with it,
one batch.  (The hover bindings that follow are modelled by
`cardHoverStep`.) -/
def animateCardsReveal (st : Bool) : List AnimEvent :=
  if !st then
    [.immediateTween ".card" 1500]
  else
    [.batchTrigger ".card"]

/-- `animatePhilosophySection` (lines 453–530): early returns when the
section, the line, or all items are missing; otherwise set initial
states, then without ScrollTrigger run two immediate delayed tweens
(line at 0.5s, items at 1s), and with it create one trigger for the
line plus one per item. -/
def animatePhilosophySection (st : Bool) (sectionPresent linePresent : Bool)
    (numItems : Nat) : List AnimEvent :=
  if !sectionPresent then []
  else if !linePresent || numItems == 0 then []
  else
    [.setState ".philosophy-line", .setState ".philosophy-item"]
      ++ (if !st then
            [.immediateTween ".philosophy-line" 500,
             .immediateTween ".philosophy-item" 1000]
          else
            [.createTrigger ".philosophy-section"]
              ++ (List.range numItems).map
                  (fun i => .createTrigger (".philosophy-item:" ++ toString i)))

/-! ## Debounced resize (lines 586–592)

`resize` handler: `clearTimeout(resizeTimeout); resizeTimeout =
setTimeout(refresh, 250)`.  We simulate the timeline: resize events at
increasing times (ms); a pending timer fires when its deadline is
reached before (or at) the next resize event; a trailing pending timer
fires after the last event. -/

/-- Process resize events given the currently pending refresh deadline;
returns the times at which `AnimationController.refresh` runs. -/
def runResizes : Option Nat → List Nat → List Nat
  | pending, [] =>
    match pending with
    | some f => [f]
    | none => []
  | pending, t :: rest =>
    match pending with
    | some f =>
      if f ≤ t then f :: runResizes (some (t + 250)) rest
      else runResizes (some (t + 250)) rest
    | none => runResizes (some (t + 250)) rest

/-- Refresh times produced by a sequence of resize events (no timer
pending initially). -/
def refreshTimes (evs : List Nat) : List Nat :=
  runResizes none evs

/-! ## Theorems -/

/-- Helper: with the engine never available, the polling loop runs the
attempt counter up to `maxAttempts` and then injects exactly one
fallback style, leaving the success-branch state untouched. -/
theorem checkGSAP_unavailable (avail : Nat → Bool) (r stp : Bool) (cb : Nat → Bool)
    (h : ∀ n, avail n = false) :
    ∀ fuel s, maxAttempts ≤ fuel + s.attempts → s.attempts < maxAttempts →
      checkGSAP avail r stp cb fuel s =
        { succ := s.succ, fallbackStyles := s.fallbackStyles + 1,
          attempts := maxAttempts } := by
  intro fuel
  induction fuel with
  | zero =>
    intro s h1 h2
    omega
  | succ fuel ih =>
    intro s h1 h2
    rw [checkGSAP]
    simp only [h, Bool.false_eq_true, if_false]
    by_cases hc : s.attempts + 1 < maxAttempts
    · rw [if_pos hc]
      exact ih { s with attempts := s.attempts + 1 }
        (show maxAttempts ≤ fuel + (s.attempts + 1) by omega)
        (show s.attempts + 1 < maxAttempts from hc)
    · rw [if_neg hc]
      have : s.attempts + 1 = maxAttempts := by omega
      simp [initCSS3Fallbacks, this]

/-- C1: if the animation engine never becomes available, `waitForGSAP`
exhausts all 50 attempts, injects exactly one fallback style element,
and never invokes the success callback. -/
theorem waitForGSAP_never_available (avail : Nat → Bool) (r stp : Bool)
    (cb : Nat → Bool) (h : ∀ n, avail n = false) :
    (waitForGSAP avail r stp cb).fallbackStyles = 1 ∧
    (waitForGSAP avail r stp cb).succ.cbCalls = 0 ∧
    (waitForGSAP avail r stp cb).attempts = maxAttempts := by
  rw [waitForGSAP, checkGSAP_unavailable avail r stp cb h maxAttempts _ (by omega)
    (by simp [maxAttempts])]
  exact ⟨rfl, rfl, rfl⟩

/-- Witness for C1 at the constantly-unavailable environment. -/
theorem waitForGSAP_never_available_witness :
    (waitForGSAP (fun _ => false) false false (fun _ => false)).fallbackStyles = 1 ∧
    (waitForGSAP (fun _ => false) false false (fun _ => false)).succ.cbCalls = 0 ∧
    (waitForGSAP (fun _ => false) false false (fun _ => false)).attempts = maxAttempts :=
  waitForGSAP_never_available (fun _ => false) false false (fun _ => false)
    (fun _ => rfl)

/-- C9: when the engine is detected, a throw from plugin registration is
caught (no registration recorded) and the success callback still runs:
the success branch ends normally with one callback invocation, and the
full loop with the engine present at the first attempt records one
callback call and no fallback style. -/
theorem registration_failure_nonfatal (stp : Bool) :
    checkGSAPSuccess true stp (fun _ => false) ⟨0, 0⟩ =
      .ok { regCalls := 0, cbCalls := 1 } ∧
    (waitForGSAP (fun _ => true) true stp (fun _ => false)).succ.cbCalls = 1 ∧
    (waitForGSAP (fun _ => true) true stp (fun _ => false)).fallbackStyles = 0 := by
  cases stp <;> exact ⟨rfl, rfl, rfl⟩

/-- C10: the callback is invoked inside the same `try` block as plugin
registration, so a callback that throws on its first invocation is
invoked a second time by the `catch` handler: two invocations when it
throws first time, one when it never throws. -/
theorem callback_throw_double_invocation (stp : Bool) :
    succCbCalls (checkGSAPSuccess false stp (fun n => n == 0) ⟨0, 0⟩) = 2 ∧
    succCbCalls (checkGSAPSuccess false stp (fun _ => false) ⟨0, 0⟩) = 1 := by
  cases stp <;> exact ⟨rfl, rfl⟩

/-- C2: with reduced motion active on an uninitialized controller, the
calls made by `init` are exactly the engine configuration followed by
`initSimpleAnimations`, and none of the full-choreography functions is
ever invoked. -/
theorem init_reduced_motion_only_simple (env : Env) (s : CtrlState)
    (hr : env.reducedMotion = true) (hi : s.isInitialized = false) :
    (init env s).2 =
      [CtrlCall.gsapConfig]
        ++ (if env.scrollTriggerPresent then [CtrlCall.scrollTriggerConfig] else [])
        ++ [CtrlCall.initSimpleAnimations] ∧
    initFullAnimations.all (fun c => !((init env s).2.contains c)) = true := by
  obtain ⟨stp, rm⟩ := env
  obtain ⟨g, st, ii⟩ := s
  simp only at hr hi
  subst hr hi
  cases stp <;> cases g <;> cases st <;> exact ⟨rfl, rfl⟩

/-- Witness for C2: reduced motion on, ScrollTrigger present, fresh
controller. -/
theorem init_reduced_motion_only_simple_witness :
    (init ⟨true, true⟩ ⟨false, false, false⟩).2 =
      [CtrlCall.gsapConfig]
        ++ (if (true : Bool) then [CtrlCall.scrollTriggerConfig] else [])
        ++ [CtrlCall.initSimpleAnimations] ∧
    initFullAnimations.all
      (fun c => !((init ⟨true, true⟩ ⟨false, false, false⟩).2.contains c)) = true :=
  init_reduced_motion_only_simple ⟨true, true⟩ ⟨false, false, false⟩ rfl rfl

/-- C6: `init` is idempotent: any call leaves the controller
initialized, and a subsequent call returns immediately, performing no
calls and leaving the state unchanged. -/
theorem init_idempotent (env : Env) (s : CtrlState) :
    (init env s).1.isInitialized = true ∧
    init env (init env s).1 = ((init env s).1, []) := by
  obtain ⟨g, st, ii⟩ := s
  cases ii <;> simp [init]

/-- Helper: one scroll event resynchronises the class with the current
offset, provided class and flag agree beforehand. -/
theorem handleScroll_sync (t : Nat) (s : HeaderState)
    (h : s.classScrolled = s.isScrolled) :
    (handleScroll t s).classScrolled = decide (t > 50) ∧
    (handleScroll t s).isScrolled = decide (t > 50) := by
  unfold handleScroll
  by_cases hc : decide (t > 50) ≠ s.isScrolled
  · rw [if_pos hc]
    exact ⟨rfl, rfl⟩
  · rw [if_neg hc]
    push_neg at hc
    exact ⟨h.trans hc.symm, hc.symm⟩

/-- Helper: the last element of a cons, with default. -/
theorem getLast?_getD_cons (t : Nat) (rest : List Nat) (cur : Nat) :
    ((t :: rest).getLast?.getD cur) = rest.getLast?.getD t := by
  cases rest with
  | nil => rfl
  | cons a l => rw [List.getLast?_cons_cons]; rfl

/-- Helper: running any sequence of scroll events keeps class and flag
synchronised and equal to the threshold test at the last seen offset. -/
theorem runScroll_class (offsets : List Nat) :
    ∀ (s : HeaderState) (cur : Nat),
      s.classScrolled = s.isScrolled → s.isScrolled = decide (cur > 50) →
      (runScroll s offsets).classScrolled = decide ((offsets.getLast?.getD cur) > 50) ∧
      (runScroll s offsets).isScrolled = (runScroll s offsets).classScrolled := by
  induction offsets with
  | nil =>
    intro s cur h1 h2
    exact ⟨h1.trans h2, h1.symm⟩
  | cons t rest ih =>
    intro s cur h1 h2
    have h := handleScroll_sync t s h1
    have hres := ih (handleScroll t s) t (h.1.trans h.2.symm) h.2
    rw [getLast?_getD_cons]
    exact hres

/-- C3: after `initHeaderScrollEffect` binds its listener (with the
header initially unclassed and an initial check at offset `t0`), for
every sequence of scroll offsets the header carries the `"scrolled"`
class exactly when the last offset exceeds 50, the class agrees with the
remembered flag, and a further event on the same side of the threshold
leaves the state (and mutation count) untouched. -/
theorem header_scrolled_class (t0 : Nat) (offsets : List Nat) :
    (runScroll (headerInit t0) offsets).classScrolled
        = decide ((offsets.getLast?.getD t0) > 50) ∧
    (runScroll (headerInit t0) offsets).isScrolled
        = (runScroll (headerInit t0) offsets).classScrolled ∧
    (∀ t : Nat, decide (t > 50) = (runScroll (headerInit t0) offsets).isScrolled →
      handleScroll t (runScroll (headerInit t0) offsets)
        = runScroll (headerInit t0) offsets) := by
  have hinit := handleScroll_sync t0 { isScrolled := false, classScrolled := false, mutations := 0 } rfl
  have h := runScroll_class offsets (headerInit t0) t0 (hinit.1.trans hinit.2.symm) hinit.2
  refine ⟨h.1, h.2, ?_⟩
  intro t ht
  unfold handleScroll
  rw [if_neg]
  intro hne
  exact hne ht

/-- Witness for C3: initial offset 0, a scroll past the threshold and
back, then an event at offset 10 staying below the threshold. -/
theorem header_scrolled_class_witness :
    (runScroll (headerInit 0) [100, 30]).classScrolled
        = decide ((([100, 30] : List Nat).getLast?.getD 0) > 50) ∧
    (runScroll (headerInit 0) [100, 30]).isScrolled
        = (runScroll (headerInit 0) [100, 30]).classScrolled ∧
    handleScroll 10 (runScroll (headerInit 0) [100, 30])
        = runScroll (headerInit 0) [100, 30] := by
  obtain ⟨h1, h2, h3⟩ := header_scrolled_class 0 [100, 30]
  exact ⟨h1, h2, h3 10 (by decide)⟩

/-- Helper: a pointer event always leaves exactly one live hover tween,
namely the freshly created one, provided at most one was live before and
any live one was the stored one. -/
theorem cardHoverStep_inv (s : CardState) (e : HoverEvent)
    (h : s.alive = [] ∨ ∃ id, s.hoverTween = some id ∧ s.alive = [id]) :
    (cardHoverStep s e).hoverTween = some s.nextId ∧
    (cardHoverStep s e).alive = [s.nextId] := by
  rcases h with h | ⟨id, h1, h2⟩ <;> cases e <;>
    cases hs : s.hoverTween <;>
    simp_all [cardHoverStep]

/-- Helper: the single-live-tween invariant is preserved by any event
sequence. -/
theorem foldl_cardHover_inv (evs : List HoverEvent) :
    ∀ s : CardState,
      (s.alive = [] ∨ ∃ id, s.hoverTween = some id ∧ s.alive = [id]) →
      ((evs.foldl cardHoverStep s).alive = [] ∨
        ∃ id, (evs.foldl cardHoverStep s).hoverTween = some id ∧
          (evs.foldl cardHoverStep s).alive = [id]) := by
  induction evs with
  | nil => intro s h; exact h
  | cons e rest ih =>
    intro s h
    have hstep := cardHoverStep_inv s e h
    exact ih (cardHoverStep s e) (Or.inr ⟨s.nextId, hstep.1, hstep.2⟩)

/-- C4: for every interleaving of mouseenter/mouseleave events on a
card, at most one hover tween created by the hover bindings is still
alive (not killed) at any instant. -/
theorem card_hover_at_most_one_active (evs : List HoverEvent) :
    (runHover evs).alive.length ≤ 1 := by
  rcases foldl_cardHover_inv evs cardInit (Or.inl rfl) with h | ⟨id, _, h⟩ <;>
    simp [runHover] at h ⊢ <;> simp [h]

/-- C5: with the engine references set, `cleanup` empties the hover-tween
map, kills all active tweens and all scroll triggers, and a second call
on the cleaned state is a no-op. -/
theorem cleanup_spec (s : TweenState)
    (hg : s.gsapPresent = true) (hst : s.scrollTriggerPresent = true) :
    (cleanup s).cardHoverTweens = [] ∧
    (cleanup s).aliveTweens = [] ∧
    (cleanup s).scrollTriggers = [] ∧
    cleanup (cleanup s) = cleanup s := by
  obtain ⟨m, a, tr, g, st⟩ := s
  simp only at hg hst
  subst hg hst
  simp [cleanup]

/-- Witness for C5: a state with one stored hover tween, two active
tweens and one scroll trigger. -/
theorem cleanup_spec_witness :
    (cleanup ⟨[(0, 1)], [1, 2], [3], true, true⟩).cardHoverTweens = [] ∧
    (cleanup ⟨[(0, 1)], [1, 2], [3], true, true⟩).aliveTweens = [] ∧
    (cleanup ⟨[(0, 1)], [1, 2], [3], true, true⟩).scrollTriggers = [] ∧
    cleanup (cleanup ⟨[(0, 1)], [1, 2], [3], true, true⟩)
      = cleanup ⟨[(0, 1)], [1, 2], [3], true, true⟩ :=
  cleanup_spec ⟨[(0, 1)], [1, 2], [3], true, true⟩ rfl rfl

/-- C7: with the ScrollTrigger reference absent, `animateSections`,
`animateCardsReveal` and `animatePhilosophySection` perform only
immediate delayed tweens (delays 1s, 1.5s, and 0.5s/1s respectively) and
create no scroll trigger at all. -/
theorem no_scrolltrigger_immediate_fallback (mp sp lp : Bool) (n : Nat) :
    animateSections false mp
        = [.immediateTween ".section-title, .text-large" 1000] ∧
    animateCardsReveal false = [.immediateTween ".card" 1500] ∧
    animatePhilosophySection false sp lp n =
      (if !sp then []
       else if !lp || n == 0 then []
       else [.setState ".philosophy-line", .setState ".philosophy-item",
             .immediateTween ".philosophy-line" 500,
             .immediateTween ".philosophy-item" 1000]) ∧
    ((animateSections false mp ++ animateCardsReveal false
        ++ animatePhilosophySection false sp lp n).all
      (fun e => !e.isScrollTriggered)) = true := by
  cases mp <;> cases sp <;> cases lp <;> cases n <;>
    simp [animateSections, animateCardsReveal, animatePhilosophySection,
      AnimEvent.isScrollTriggered]

/-- Helper: with a timer pending 250ms after `t0` and every later resize
event arriving less than 250ms after its predecessor, the only refresh
fires 250ms after the last event. -/
theorem runResizes_burst (evs : List Nat) :
    ∀ t0 : Nat, List.Chain' (fun a b => a < b ∧ b < a + 250) (t0 :: evs) →
      runResizes (some (t0 + 250)) evs = [(evs.getLast?.getD t0) + 250] := by
  induction evs with
  | nil => intro t0 _; rfl
  | cons t1 rest ih =>
    intro t0 hc
    rw [List.chain'_cons] at hc
    rw [runResizes]
    rw [if_neg (by omega)]
    rw [ih t1 hc.2, getLast?_getD_cons]

/-- C8: for a non-empty burst of resize events in which consecutive
events are separated by less than 250ms, exactly one refresh results,
250ms after the last event of the burst. -/
theorem resize_burst_single_refresh (t0 : Nat) (evs : List Nat)
    (h : List.Chain' (fun a b => a < b ∧ b < a + 250) (t0 :: evs)) :
    refreshTimes (t0 :: evs) = [((t0 :: evs).getLast?.getD 0) + 250] := by
  rw [refreshTimes, runResizes, getLast?_getD_cons]
  exact runResizes_burst evs t0 h

/-- Witness for C8: three resize events 100ms apart collapse to one
refresh at 450ms. -/
theorem resize_burst_single_refresh_witness :
    List.Chain' (fun a b => a < b ∧ b < a + 250) [0, 100, 200] ∧
    refreshTimes [0, 100, 200] = [(([0, 100, 200] : List Nat).getLast?.getD 0) + 250] :=
  ⟨by norm_num [List.chain'_cons],
   resize_burst_single_refresh 0 [100, 200] (by norm_num [List.chain'_cons])⟩

end Main
